import Mathlib

/-
Verification development for the chat backend (Django app `api`).

The embedding models the request-level logic of `src/api/views.py`
(`generate_response`, `regenerate_message`, `delete_chat`) and the
completion gateway `src/api/openai_service.py` (`get_openai_response`).

Modelling conventions:
* A session's message log is kept as a Lean list in chronological order
  (oldest first).  Django's `order_by("-timestamp")` is modelled as
  `List.reverse` of that log: message timestamps come from `auto_now_add`
  and are strictly increasing in append order, so list position encodes
  timestamp order and the `timestamp` column itself is elided.
* UUID session identifiers are opaque tokens; they are modelled as natural
  numbers whose string form is the decimal numeral (`uuidParse`).
* The external HTTP call performed by the gateway is an uninterpreted
  outcome parameter `net : Except Unit GwResp` (a transport failure or a
  decoded JSON body).  The Azure settings check in `get_openai_response`
  is environmental plumbing and is elided; it happens after the model
  resolution branches modelled here.
* Python floats are modelled by `PyFloat` (finite rational, infinity or
  nan); `float(x)` coercion is `pyFloat`, with a recognizer for the string
  forms accepted by the Python builtin (sign, decimal with optional
  fraction and exponent, inf / infinity / nan, surrounding whitespace;
  digit-group underscores are not modelled).
-/

namespace Backend

/-- JSON values as produced by `json.loads` for a request field; `jnull`
also stands for a missing key (`data.get` returns `None`). -/
inductive JVal where
  | jnull : JVal
  | jbool : Bool → JVal
  | jnum : Rat → JVal
  | jstr : String → JVal
  | jarr : Bool → JVal
  | jobj : Bool → JVal
deriving DecidableEq

/-- Python truthiness of a JSON value, as used by `all([...])` in
`generate_response`: `None`, `False`, numeric zero, empty string, empty
list and empty dict are falsy.  The `jarr` and `jobj` payloads record
non-emptiness; element contents never influence the modelled control
flow. -/
def truthy : JVal → Bool
  | .jnull => false
  | .jbool b => b
  | .jnum q => decide (q ≠ 0)
  | .jstr s => decide (s ≠ "")
  | .jarr nonempty => nonempty
  | .jobj nonempty => nonempty

/-- Result of a successful Python `float(..)` coercion: a finite rational,
a signed infinity, or nan. -/
inductive PyFloat where
  | finite : Rat → PyFloat
  | infty : Bool → PyFloat
  | nan : PyFloat
deriving DecidableEq

/-- Numeric value of a list of decimal digit characters. -/
def digitsToNat (ds : List Char) : Nat :=
  ds.foldl (fun acc c => acc * 10 + (c.toNat - 48)) 0

/-- Recognizer and value for the decimal part of a Python float literal:
`digits [. digits] [(e|E) [sign] digits]`, requiring at least one digit
before or after the dot. -/
def parseDecimal (cs : List Char) : Option Rat :=
  let ip := cs.takeWhile Char.isDigit
  let rest := cs.dropWhile Char.isDigit
  let fp :=
    match rest with
    | '.' :: r => r.takeWhile Char.isDigit
    | _ => []
  let rest2 :=
    match rest with
    | '.' :: r => r.dropWhile Char.isDigit
    | _ => rest
  if ip.isEmpty && fp.isEmpty then none
  else
    let mant : Rat := (digitsToNat ip : Rat) + (digitsToNat fp : Rat) / ((10 : Rat) ^ fp.length)
    match rest2 with
    | [] => some mant
    | e :: r =>
      if e = 'e' ∨ e = 'E' then
        let neg := match r with | '-' :: _ => true | _ => false
        let r2 := match r with | '+' :: t => t | '-' :: t => t | _ => r
        let ed := r2.takeWhile Char.isDigit
        let r3 := r2.dropWhile Char.isDigit
        if ed.isEmpty ∨ ¬r3.isEmpty then none
        else if neg then some (mant / ((10 : Rat) ^ digitsToNat ed))
        else some (mant * ((10 : Rat) ^ digitsToNat ed))
      else none

/-- Whitespace characters stripped by Python `float(str)`. -/
def isPyWs (c : Char) : Bool :=
  c = ' ' ∨ c = '\t' ∨ c = '\n' ∨ c = '\r' ∨ c = '\x0c' ∨ c = '\x0b'

/-- Python `float(s)` for a string argument: optional whitespace, optional
sign, then a decimal literal or `inf`, `infinity`, `nan` (case
insensitive). -/
def pyFloatOfString (s : String) : Option PyFloat :=
  let cs := (s.data.dropWhile isPyWs).reverse.dropWhile isPyWs |>.reverse
  let neg := match cs with | '-' :: _ => true | _ => false
  let body := match cs with | '+' :: t => t | '-' :: t => t | _ => cs
  let low := body.map Char.toLower
  if low = "inf".data ∨ low = "infinity".data then some (.infty neg)
  else if low = "nan".data then some .nan
  else
    match parseDecimal body with
    | some q => some (.finite (if neg then -q else q))
    | none => none

/-- Python `float(x)` on a JSON value: numbers and booleans coerce, strings
go through the literal recognizer, `None`, lists and dicts raise
`TypeError` (returned as `none`; `generate_response` catches both
`ValueError` and `TypeError`). -/
def pyFloat : JVal → Option PyFloat
  | .jnull => none
  | .jbool b => some (.finite (if b then 1 else 0))
  | .jnum q => some (.finite q)
  | .jstr s => pyFloatOfString s
  | .jarr _ => none
  | .jobj _ => none

/-- Row of the `OpenAIModel` table (`src/api/models.py`): name is unique,
`active` gates availability.  The `endpoint` and `description` columns do
not influence the modelled control flow. -/
structure OpenAIModel where
  name : String
  endpoint : String
  active : Bool
deriving DecidableEq

/-- Shape of the `message` object inside a choice of the upstream JSON
response; `content` is `none` when the key is absent. -/
structure ChoiceMsg where
  content : Option String
deriving DecidableEq

/-- Shape of one element of the upstream `choices` array. -/
structure Choice where
  message : Option ChoiceMsg
deriving DecidableEq

/-- Decoded upstream JSON body; `choices = none` means the key is absent,
`choices = some l` means the key is present with array value `l`. -/
structure GwResp where
  choices : Option (List Choice)
deriving DecidableEq

/-- Model of the reply extraction from `views.py` lines 106 and 266: get
the `choices` key with a one-empty-dict default, subscript the first
element, then get `message` and `content` with defaults.  Here `none`
models the `IndexError` raised when the `choices` key is present with an
empty list: the `[0]` subscript fails before any defaulting applies. -/
def extractContent (r : GwResp) : Option String :=
  match r.choices.getD [⟨none⟩] with
  | [] => none
  | c :: _ => some ((c.message.getD ⟨none⟩).content.getD "")

/-- Failure taxonomy of the completion gateway `get_openai_response`:
the two `ValueError` branches of the model resolution and a transport
(`requests.exceptions.RequestException`) failure. -/
inductive GwErr where
  | unknownModel : GwErr
  | noModelAvailable : GwErr
  | upstream : GwErr
deriving DecidableEq

/-- Model resolution of `get_openai_response` (`openai_service.py` lines
31-39): a truthy `model_name` must name an active configuration
(`ValueError` = `unknownModel` otherwise); a falsy one selects the first
active configuration (`ValueError` = `noModelAvailable` when none). -/
def resolveModel (models : List OpenAIModel) (modelName : Option String) :
    Except GwErr OpenAIModel :=
  if modelName.getD "" = "" then
    match models.find? (fun m => m.active) with
    | some m => .ok m
    | none => .error .noModelAvailable
  else
    match models.find? (fun m => m.name == modelName.getD "" && m.active) with
    | some m => .ok m
    | none => .error .unknownModel

/-- Model of `get_openai_response(messages, temperature, model_name)`:
resolve the model, then perform the external HTTP call, whose outcome is
the parameter `net` (transport failures map to `upstream`). -/
def get_openai_response (models : List OpenAIModel) (modelName : Option String)
    (net : Except Unit GwResp) : Except GwErr GwResp :=
  match resolveModel models modelName with
  | .error e => .error e
  | .ok _ => net.mapError (fun _ => GwErr.upstream)

/-- Stored chat message (`ChatMessage` row), minus the timestamp column:
list position in the session log encodes timestamp order. -/
structure Msg where
  sender : String
  content : String
  model_name : String
  temperature : PyFloat
  regenerated : Bool
deriving DecidableEq

/-- Role-tagged message sent to the LLM (one element of the `messages`
payload). -/
structure RoleMsg where
  role : String
  content : String
deriving DecidableEq

/-- Role translation applied per message in `views.py` lines 98 and 249:
stored sender `ai` becomes `assistant`, anything else passes through. -/
def toRoleMsg (m : Msg) : RoleMsg :=
  ⟨if m.sender = "ai" then "assistant" else m.sender, m.content⟩

/-- Context window of `generate_response` (line 94):
`chat.messages.order_by("-timestamp")[:5]`, then re-reversed to
chronological order at line 99.  No `regenerated` filter is applied on
this path. -/
def sendWindow (log : List Msg) : List Msg :=
  ((log.reverse).take 5).reverse

/-- Context window of `regenerate_message` (line 245):
`chat.messages.filter(regenerated=False).order_by("-timestamp")[:5]`,
re-reversed to chronological order. -/
def regenWindow (log : List Msg) : List Msg :=
  (((log.filter (fun m => !m.regenerated)).reverse).take 5).reverse

/-- Record of one invocation of the completion gateway: the arguments
`messages`, `temperature`, `model_name` passed to
`get_openai_response`. -/
structure GwCall where
  messages : List RoleMsg
  temperature : PyFloat
  model_name : String
deriving DecidableEq

/-- Session-level state: the `title` column of `ChatSession` (blank string
when unset) and the chronological message log. -/
structure Sess where
  title : String
  msgs : List Msg
deriving DecidableEq

/-- Python string slice `s[:n]`, which operates on code points. -/
def pyTake (n : Nat) (s : String) : String :=
  String.mk (s.data.take n)

/-- Outcome taxonomy of `generate_response`.  `missingFields`,
`invalidTemperature` and `invalidChatId` are its three 400 responses;
`internalError` is the blanket 500 handler (which also swallows the
`Http404` of `get_object_or_404` and gateway `ValueError`s).
`alreadyProcessing` exists only to state the specified single-flight
guard; no code path produces it. -/
inductive SendOutcome where
  | ok : String → SendOutcome
  | missingFields : SendOutcome
  | invalidTemperature : SendOutcome
  | invalidChatId : SendOutcome
  | internalError : SendOutcome
  | alreadyProcessing : SendOutcome
deriving DecidableEq

/-- Core of `generate_response` after validation and session resolution
(lines 94-119): build the context, call the gateway, extract the reply,
append the user/ai pair, set the title if unset.  Returns the outcome,
the updated session, and the recorded gateway call. -/
def sendCore (models : List OpenAIModel) (s : Sess) (message model : String)
    (temp : PyFloat) (net : Except Unit GwResp) :
    SendOutcome × Sess × Option GwCall :=
  let gmsgs : List RoleMsg :=
    ⟨"system", "You are a helpful assistant."⟩ ::
      ((sendWindow s.msgs).map toRoleMsg ++ [⟨"user", message⟩])
  let call : GwCall := ⟨gmsgs, temp, model⟩
  match get_openai_response models (some model) net with
  | .error _ => (.internalError, s, some call)
  | .ok resp =>
    match extractContent resp with
    | none => (.internalError, s, some call)
    | some ai_reply =>
      let msgs2 := s.msgs ++
        [⟨"user", message, model, temp, false⟩, ⟨"ai", ai_reply, model, temp, false⟩]
      let title2 := if s.title = "" then pyTake 30 message else s.title
      (.ok ai_reply, ⟨title2, msgs2⟩, some call)

/-- Validation layer of `generate_response` restricted to one session:
the `all([...])` required-fields check (line 79) followed by the
`float(temperature)` coercion (lines 82-85), then `sendCore`.  The
non-temperature fields reach this code as JSON strings, whose truthiness
is non-emptiness. -/
def sendSession (models : List OpenAIModel) (s : Sess) (message model : String)
    (temperature : JVal) (net : Except Unit GwResp) :
    SendOutcome × Sess × Option GwCall :=
  if message = "" ∨ model = "" ∨ truthy temperature = false then
    (.missingFields, s, none)
  else
    match pyFloat temperature with
    | none => (.invalidTemperature, s, none)
    | some temp => sendCore models s message model temp net

/-- Outcome taxonomy of `regenerate_message`: the two 400 responses and
the blanket 500 handler around the gateway call. -/
inductive RegenOutcome where
  | ok : String → RegenOutcome
  | noAiMessage : RegenOutcome
  | noUserMessage : RegenOutcome
  | internalError : RegenOutcome
deriving DecidableEq

/-- Copy of a message with the `regenerated` flag set, modelling
`last_ai_message.regenerated = True; last_ai_message.save()`. -/
def setRegenerated (m : Msg) : Msg :=
  ⟨m.sender, m.content, m.model_name, m.temperature, true⟩

/-- Locate and mark the most recent message with `sender="ai"` and
`regenerated=False` (`views.py` lines 239-243):
`filter(sender="ai", regenerated=False).order_by("-timestamp").first()`.
Returns the updated log and the located message (before marking), or
`none` when no such message exists. -/
def markLastAi : List Msg → Option (List Msg × Msg)
  | [] => none
  | m :: rest =>
    match markLastAi rest with
    | some p => some (m :: p.1, p.2)
    | none =>
      if m.sender = "ai" ∧ m.regenerated = false then
        some (setRegenerated m :: rest, m)
      else none

/-- Model of `regenerate_message` (`views.py` lines 224-280) at session
level: mark the last non-regenerated ai message (persisted immediately),
rebuild the regenerated-excluded window, locate the user prompt via
`next(msg for msg in reversed(recent_messages) if msg.sender == "user")`
(the chronologically first user message of the window), call the gateway
with that message's stored model and temperature, and append one new ai
message on success.  Returns the outcome, the updated log and the
recorded gateway call. -/
def regenerate_message (models : List OpenAIModel) (msgs : List Msg)
    (net : Except Unit GwResp) : RegenOutcome × List Msg × Option GwCall :=
  match markLastAi msgs with
  | none => (.noAiMessage, msgs, none)
  | some p =>
    let msgs1 := p.1
    let window := regenWindow msgs1
    match window.find? (fun m => m.sender == "user") with
    | none => (.noUserMessage, msgs1, none)
    | some u =>
      let gmsgs : List RoleMsg :=
        ⟨"system", "You are a helpful assistant."⟩ ::
          (window.map toRoleMsg ++ [⟨"user", u.content⟩])
      let call : GwCall := ⟨gmsgs, u.temperature, u.model_name⟩
      match get_openai_response models (some u.model_name) net with
      | .error _ => (.internalError, msgs1, some call)
      | .ok resp =>
        match extractContent resp with
        | none => (.internalError, msgs1, some call)
        | some content =>
          (.ok content, msgs1 ++ [⟨"ai", content, u.model_name, u.temperature, false⟩],
            some call)

/-- Stored `ChatSession` row with its message log: primary key, owner,
title, messages. -/
structure DbSession where
  sid : Nat
  owner : Nat
  title : String
  msgs : List Msg
deriving DecidableEq

/-- Request body of `generate_response` after `json.loads`; the
non-temperature fields are modelled as strings (empty string standing for
a missing or null field, matching Python falsiness), the temperature as a
raw JSON value because its type drives the validation branches. -/
structure SendReq where
  chat_id : String
  message : String
  model : String
  temperature : JVal
deriving DecidableEq

/-- Model of `UUID(chat_id)`: session identifiers are opaque tokens,
modelled as the decimal numerals of natural numbers; any other string
raises `ValueError` (`none`). -/
def uuidParse (s : String) : Option Nat :=
  if s ≠ "" ∧ s.data.all Char.isDigit then some (digitsToNat s.data) else none

/-- Full `generate_response` (`views.py` lines 60-125): required-fields
check, temperature coercion, chat id parse, owner-scoped session lookup
(`get_object_or_404`; its `Http404` is swallowed by the blanket
`except Exception` and surfaces as the 500 `internalError`), then
`sendCore` on the found session. -/
def generate_response (models : List OpenAIModel) (sessions : List DbSession)
    (principal : Nat) (req : SendReq) (net : Except Unit GwResp) :
    SendOutcome × List DbSession × Option GwCall :=
  if req.chat_id = "" ∨ req.message = "" ∨ req.model = "" ∨
      truthy req.temperature = false then
    (.missingFields, sessions, none)
  else
    match pyFloat req.temperature with
    | none => (.invalidTemperature, sessions, none)
    | some temp =>
      match uuidParse req.chat_id with
      | none => (.invalidChatId, sessions, none)
      | some cid =>
        match sessions.find? (fun s => s.sid == cid && s.owner == principal) with
        | none => (.internalError, sessions, none)
        | some db =>
          let r := sendCore models ⟨db.title, db.msgs⟩ req.message req.model temp net
          (r.1,
            sessions.map (fun s =>
              if s.sid == cid && s.owner == principal then
                ⟨s.sid, s.owner, r.2.1.title, r.2.1.msgs⟩
              else s),
            r.2.2)

/-- Session row as seen by `delete_chat`: primary key and owner. -/
structure SessionRec where
  sid : Nat
  owner : Nat
deriving DecidableEq

/-- Message row as seen by `delete_chat`: the owning session's key
(`ForeignKey(ChatSession, on_delete=CASCADE)`). -/
structure MsgRec where
  mid : Nat
  chatId : Nat
deriving DecidableEq

/-- Database state for `delete_chat`: session rows, message rows, and the
next identifier the store would assign to a created session. -/
structure Db where
  sessions : List SessionRec
  messages : List MsgRec
  nextId : Nat
deriving DecidableEq

/-- Outcome of `delete_chat`: success carries the `new_chat_id` field of
the JSON response (`null` when other sessions remain); `notFound` is the
404 of `get_object_or_404`. -/
inductive DeleteOutcome where
  | ok : Option Nat → DeleteOutcome
  | notFound : DeleteOutcome
deriving DecidableEq

/-- Model of `delete_chat` (`views.py` lines 195-220): owner-scoped
lookup, delete the session (messages cascade via the foreign key), then
create a fresh session for the caller exactly when they have no sessions
left, returning its id as `new_chat_id`. -/
def delete_chat (db : Db) (principal : Nat) (cid : Nat) : DeleteOutcome × Db :=
  match db.sessions.find? (fun s => s.sid == cid && s.owner == principal) with
  | none => (.notFound, db)
  | some _ =>
    let sessions1 := db.sessions.filter (fun s => s.sid ≠ cid)
    let messages1 := db.messages.filter (fun m => m.chatId ≠ cid)
    if sessions1.any (fun s => s.owner == principal) then
      (.ok none, ⟨sessions1, messages1, db.nextId⟩)
    else
      (.ok (some db.nextId), ⟨sessions1 ++ [⟨db.nextId, principal⟩], messages1, db.nextId + 1⟩)

/-- One request against a single session: a send with its raw inputs and
gateway outcome, or a regeneration with its gateway outcome. -/
inductive Op where
  | send : String → String → JVal → Except Unit GwResp → Op
  | regen : Except Unit GwResp → Op

/-- One request step on a session.  The second component records the user
text of a send that completed successfully (the only requests that touch
the title), `none` otherwise. -/
def stepOp (models : List OpenAIModel) (s : Sess) : Op → Sess × Option String
  | .send message model temperature net =>
    let r := sendSession models s message model temperature net
    match r.1 with
    | .ok _ => (r.2.1, some message)
    | _ => (r.2.1, none)
  | .regen net =>
    let r := regenerate_message models s.msgs net
    (⟨s.title, r.2.1⟩, none)

/-- Run a request trace against a session, collecting the user texts of
the successful sends in order. -/
def runAcc (models : List OpenAIModel) (s : Sess) : List Op → Sess × List String
  | [] => (s, [])
  | op :: ops =>
    let r := stepOp models s op
    let rest := runAcc models r.1 ops
    (rest.1, r.2.toList ++ rest.2)

/-! Helper lemmas about the context windows. -/

lemma sendWindow_suffix (log : List Msg) : sendWindow log <:+ log := by
  have h : (log.reverse.take 5).reverse <:+ log.reverse.reverse :=
    List.reverse_suffix.mpr ( List.take_prefix 5 log.reverse)
  simpa [sendWindow, List.reverse_reverse] using h

lemma sendWindow_length (log : List Msg) : (sendWindow log).length = min 5 log.length := by
  simp [sendWindow, List.length_take, List.length_reverse]

lemma mem_sendWindow (log : List Msg) (m : Msg) (h : m ∈ sendWindow log) : m ∈ log := by
  have h2 : m ∈ log.reverse.take 5 := by simpa [sendWindow] using h
  have h3 : m ∈ log.reverse := List.mem_of_mem_take h2
  simpa using h3

lemma mem_regenWindow (log : List Msg) (m : Msg) (h : m ∈ regenWindow log) :
    m.regenerated = false ∧ m ∈ log := by
  have h2 : m ∈ (log.filter (fun m => !m.regenerated)).reverse.take 5 := by
    simpa [regenWindow] using h
  have h3 : m ∈ log.filter (fun m => !m.regenerated) := by
    simpa using List.mem_of_mem_take h2
  have h4 := List.mem_filter.mp h3
  refine ⟨?_, h4.1⟩
  simpa using h4.2

/-- C1: the claim says the `sendMessage` context window excludes messages
marked `regenerated`.  It does not: `generate_response` builds its window
from `chat.messages.order_by("-timestamp")[:5]` with no `regenerated`
filter, so a session whose latest message is a regenerated ai answer
still sends that answer to the LLM.  Concretely, on a session whose log
is one regenerated ai message, the recorded gateway call contains that
message. -/
theorem c1_counterexample :
    (Msg.mk "ai" "old-answer" "m" (.finite 1) true).regenerated = true ∧
    (sendCore [⟨"m", "ep", true⟩] ⟨"", [⟨"ai", "old-answer", "m", .finite 1, true⟩]⟩
        "hi" "m" (.finite 1) (.ok ⟨some [⟨some ⟨some "Hello!"⟩⟩]⟩)).2.2 =
      some ⟨[⟨"system", "You are a helpful assistant."⟩, ⟨"assistant", "old-answer"⟩,
        ⟨"user", "hi"⟩], .finite 1, "m"⟩ := by
  decide

/-- C1 (amended): for `sendMessage` the historical window is the most
recent 5 messages of the session, retrieved newest-first and reversed to
chronological order, WITHOUT excluding regenerated messages; the
`regenerated` exclusion applies only to the `regenerateLast` window.
Formally: the send window is a suffix of the chronological log of length
`min 5 (length log)`, drawn from the log, while every member of the
regenerate window has `regenerated = false`. -/
theorem c1_window_shape (log : List Msg) :
    sendWindow log <:+ log ∧
    (sendWindow log).length = min 5 log.length ∧
    (∀ m ∈ sendWindow log, m ∈ log) ∧
    (∀ m ∈ regenWindow log, m.regenerated = false ∧ m ∈ log) :=
  ⟨sendWindow_suffix log, sendWindow_length log,
    fun m hm => mem_sendWindow log m hm,
    fun m hm => mem_regenWindow log m hm⟩

/-- Witness for C1 (amended) at a concrete two-message log. -/
theorem c1_window_shape_witness :
    sendWindow [⟨"user", "hi", "m", .finite 1, false⟩] <:+
        [⟨"user", "hi", "m", .finite 1, false⟩] ∧
    (Msg.mk "user" "hi" "m" (.finite 1) false).regenerated = false :=
  ⟨(c1_window_shape [⟨"user", "hi", "m", .finite 1, false⟩]).1,
    ((c1_window_shape [⟨"user", "hi", "m", .finite 1, false⟩]).2.2.2
      ⟨"user", "hi", "m", .finite 1, false⟩ (by decide)).1⟩

/-- C4: the message sequence passed to the completion gateway by a send
starts with the fixed system message, continues with the historical
window under the `ai` to `assistant` role translation (with `user`
passing through), and ends with the new user text.  The recorded gateway
call also carries the request's temperature and model. -/
theorem c4_context_shape (models : List OpenAIModel) (s : Sess)
    (message model : String) (temp : PyFloat) (net : Except Unit GwResp) :
    ∃ c, (sendCore models s message model temp net).2.2 = some c ∧
      c.messages.head? = some ⟨"system", "You are a helpful assistant."⟩ ∧
      c.messages.getLast? = some ⟨"user", message⟩ ∧
      c.messages = ⟨"system", "You are a helpful assistant."⟩ ::
        ((sendWindow s.msgs).map toRoleMsg ++ [⟨"user", message⟩]) ∧
      c.temperature = temp ∧ c.model_name = model ∧
      (∀ m : Msg, m.sender = "ai" → (toRoleMsg m).role = "assistant") ∧
      (∀ m : Msg, m.sender ≠ "ai" → (toRoleMsg m).role = m.sender) ∧
      (∀ m : Msg, (toRoleMsg m).content = m.content) := by
  refine ⟨⟨⟨"system", "You are a helpful assistant."⟩ ::
    ((sendWindow s.msgs).map toRoleMsg ++ [⟨"user", message⟩]), temp, model⟩, ?_, ?_, ?_, rfl,
    rfl, rfl, ?_, ?_, ?_⟩
  · unfold sendCore
    cases get_openai_response models (some model) net with
    | error e => rfl
    | ok resp =>
      cases h : extractContent resp with
      | none => simp [h]
      | some t => simp [h]
  · rfl
  · show (⟨"system", "You are a helpful assistant."⟩ ::
      ((sendWindow s.msgs).map toRoleMsg ++ [⟨"user", message⟩]) : List RoleMsg).getLast? = _
    rw [← List.cons_append]
    exact List.getLast?_concat _
  · intro m hm
    simp [toRoleMsg, hm]
  · intro m hm
    simp [toRoleMsg, hm]
  · intro m
    rfl

/-- Witness for C4 at a concrete send. -/
theorem c4_context_shape_witness :
    ∃ c, (sendCore [⟨"m", "ep", true⟩] ⟨"", []⟩ "hi" "m" (.finite 1)
        (.ok ⟨some [⟨some ⟨some "Hello!"⟩⟩]⟩)).2.2 = some c ∧
      c.messages.head? = some ⟨"system", "You are a helpful assistant."⟩ := by
  obtain ⟨c, h1, h2, -⟩ := c4_context_shape [⟨"m", "ep", true⟩] ⟨"", []⟩ "hi" "m" (.finite 1)
    (.ok ⟨some [⟨some ⟨some "Hello!"⟩⟩]⟩)
  exact ⟨c, h1, h2⟩

/-- C7: the claim says extraction never fails solely because content is
empty, including when the choices list is present and empty.  It does
fail there: `openai_response.get("choices", [default])[0]` raises
`IndexError` on a present-but-empty list, which the blanket handler turns
into a 500 response, so a send with such an upstream body errors instead
of storing an empty reply. -/
theorem c7_counterexample :
    extractContent ⟨some []⟩ = none ∧
    (sendCore [⟨"m", "ep", true⟩] ⟨"", []⟩ "hi" "m" (.finite 1)
        (.ok ⟨some []⟩)).1 = .internalError ∧
    (sendCore [⟨"m", "ep", true⟩] ⟨"", []⟩ "hi" "m" (.finite 1)
        (.ok ⟨some []⟩)).2.1 = ⟨"", []⟩ := by
  decide

/-- C7 (amended): extraction returns the text of the first generated
choice; it returns the empty string when the `choices` key is absent or
when the first choice's `message` or `content` is absent; but when the
`choices` key is present with an empty list, the extraction fails
(IndexError, surfaced as a 500) rather than returning the empty
string. -/
theorem c7_extraction (r : GwResp) :
    (extractContent r = none ↔ r.choices = some []) ∧
    (r.choices = none → extractContent r = some "") ∧
    (∀ c cs, r.choices = some (c :: cs) →
      extractContent r = some ((c.message.getD ⟨none⟩).content.getD "")) := by
  obtain ⟨choices⟩ := r
  cases choices with
  | none => simp [extractContent]
  | some l =>
    cases l with
    | nil => simp [extractContent]
    | cons c cs => simp [extractContent]

/-- Witness for C7 (amended) at concrete response bodies. -/
theorem c7_extraction_witness :
    extractContent ⟨none⟩ = some "" ∧
    extractContent ⟨some [⟨some ⟨some "Hello!"⟩⟩]⟩ = some "Hello!" :=
  ⟨(c7_extraction ⟨none⟩).2.1 rfl,
    (c7_extraction ⟨some [⟨some ⟨some "Hello!"⟩⟩]⟩).2.2 ⟨some ⟨some "Hello!"⟩⟩ [] rfl⟩

/-! Helper lemmas about the send pipeline outcomes. -/

lemma sendCore_fst (models : List OpenAIModel) (s : Sess) (message model : String)
    (temp : PyFloat) (net : Except Unit GwResp) :
    (sendCore models s message model temp net).1 = .internalError ∨
    ∃ t, (sendCore models s message model temp net).1 = .ok t := by
  unfold sendCore
  cases get_openai_response models (some model) net with
  | error e => left; rfl
  | ok resp =>
    cases h : extractContent resp with
    | none => left; simp [h]
    | some t => right; exact ⟨t, by simp [h]⟩

lemma sendCore_ne_already (models : List OpenAIModel) (s : Sess) (message model : String)
    (temp : PyFloat) (net : Except Unit GwResp) :
    (sendCore models s message model temp net).1 ≠ .alreadyProcessing := by
  rcases sendCore_fst models s message model temp net with h | ⟨t, h⟩ <;> simp [h]

/-- C2: the claim says concurrent sends on one session are arbitrated by
a per-(principal, session) Processing guard, one failing with
AlreadyProcessing.  No such guard exists: `ChatSession` stores no
processing state and `generate_response` has no rejection path.  Two
back-to-back requests on the same session and principal both succeed. -/
theorem c2_counterexample :
    (generate_response [⟨"m", "ep", true⟩] [⟨1, 7, "", []⟩] 7 ⟨"1", "hi", "m", .jnum 1⟩
        (.ok ⟨some [⟨some ⟨some "Hello!"⟩⟩]⟩)).1 = .ok "Hello!" ∧
    (generate_response [⟨"m", "ep", true⟩]
        ((generate_response [⟨"m", "ep", true⟩] [⟨1, 7, "", []⟩] 7 ⟨"1", "hi", "m", .jnum 1⟩
          (.ok ⟨some [⟨some ⟨some "Hello!"⟩⟩]⟩)).2.1) 7 ⟨"1", "hi", "m", .jnum 1⟩
        (.ok ⟨some [⟨some ⟨some "Hello!"⟩⟩]⟩)).1 = .ok "Hello!" := by
  decide

/-- C2 (amended): the code implements no single-flight guard.
`generate_response` never returns AlreadyProcessing, for any database
state, principal, request and upstream outcome; consequently a second
request on the same session is processed like the first rather than
rejected. -/
theorem c2_no_single_flight (models : List OpenAIModel) (sessions : List DbSession)
    (principal : Nat) (req : SendReq) (net : Except Unit GwResp) :
    (generate_response models sessions principal req net).1 ≠ .alreadyProcessing := by
  unfold generate_response
  split
  · simp
  · split
    · simp
    · split
      · simp
      · split
        · simp
        · apply sendCore_ne_already

/-- Witness for C2 (amended) at the concrete double-send input. -/
theorem c2_no_single_flight_witness :
    (generate_response [⟨"m", "ep", true⟩] [⟨1, 7, "", []⟩] 7 ⟨"1", "hi", "m", .jnum 1⟩
        (.ok ⟨some [⟨some ⟨some "Hello!"⟩⟩]⟩)).1 ≠ .alreadyProcessing :=
  c2_no_single_flight [⟨"m", "ep", true⟩] [⟨1, 7, "", []⟩] 7 ⟨"1", "hi", "m", .jnum 1⟩
    (.ok ⟨some [⟨some ⟨some "Hello!"⟩⟩]⟩)

/-- C9: the claim says validation succeeds exactly when the temperature
is coercible to a finite float, every finite numeric temperature
including 0 passing.  It fails at 0: the required-fields check
`all([chat_id, user_message, model_name, temperature])` uses Python
truthiness, so the JSON number 0 — finite and float-coercible — is
rejected as a missing field. -/
theorem c9_counterexample :
    truthy (.jnum 0) = false ∧
    pyFloat (.jnum 0) = some (.finite 0) ∧
    (generate_response [⟨"m", "ep", true⟩] [⟨1, 7, "", []⟩] 7 ⟨"1", "hi", "m", .jnum 0⟩
        (.ok ⟨some [⟨some ⟨some "Hello!"⟩⟩]⟩)).1 = .missingFields := by
  decide

lemma generate_response_missing (models : List OpenAIModel) (sessions : List DbSession)
    (principal : Nat) (req : SendReq) (net : Except Unit GwResp)
    (h1 : req.chat_id = "" ∨ req.message = "" ∨ req.model = "" ∨ truthy req.temperature = false) :
    (generate_response models sessions principal req net).1 = .missingFields := by
  unfold generate_response
  rw [if_pos h1]

lemma generate_response_invalidTemp (models : List OpenAIModel) (sessions : List DbSession)
    (principal : Nat) (req : SendReq) (net : Except Unit GwResp)
    (h1 : ¬(req.chat_id = "" ∨ req.message = "" ∨ req.model = "" ∨ truthy req.temperature = false))
    (hpf : pyFloat req.temperature = none) :
    (generate_response models sessions principal req net).1 = .invalidTemperature := by
  unfold generate_response
  rw [if_neg h1]
  simp [hpf]

lemma generate_response_valid_ne (models : List OpenAIModel) (sessions : List DbSession)
    (principal : Nat) (req : SendReq) (net : Except Unit GwResp) (temp : PyFloat)
    (h1 : ¬(req.chat_id = "" ∨ req.message = "" ∨ req.model = "" ∨ truthy req.temperature = false))
    (hpf : pyFloat req.temperature = some temp) :
    (generate_response models sessions principal req net).1 ≠ .missingFields ∧
    (generate_response models sessions principal req net).1 ≠ .invalidTemperature := by
  unfold generate_response
  rw [if_neg h1]
  simp only [hpf]
  cases hu : uuidParse req.chat_id with
  | none => simp
  | some cid =>
    cases hf : sessions.find? (fun s => s.sid == cid && s.owner == principal) with
    | none => simp [hf]
    | some db =>
      rcases sendCore_fst models ⟨db.title, db.msgs⟩ req.message req.model temp net with
        h | ⟨t, h⟩ <;> constructor <;> simp [hf, h]

/-- C9 (amended): all four fields `chat_id`, `message`, `model`,
`temperature` are required and must be Python-truthy, so the JSON number
0 and empty strings are rejected as missing fields; for truthy fields,
validation fails with InvalidInput exactly when Python `float()` coercion
of the temperature fails, and coercibility does not require finiteness
(`"inf"` is accepted) while finite values can still be rejected by the
truthiness check. -/
theorem c9_validation (models : List OpenAIModel) (sessions : List DbSession)
    (principal : Nat) (req : SendReq) (net : Except Unit GwResp) :
    ((generate_response models sessions principal req net).1 = .missingFields ↔
      (req.chat_id = "" ∨ req.message = "" ∨ req.model = "" ∨ truthy req.temperature = false)) ∧
    ((generate_response models sessions principal req net).1 = .invalidTemperature ↔
      (¬(req.chat_id = "" ∨ req.message = "" ∨ req.model = "" ∨ truthy req.temperature = false) ∧
        pyFloat req.temperature = none)) ∧
    pyFloatOfString "inf" = some (.infty false) ∧
    pyFloatOfString "abc" = none ∧
    pyFloat .jnull = none := by
  refine ⟨?_, ?_, by decide, by decide, rfl⟩
  · by_cases h1 : (req.chat_id = "" ∨ req.message = "" ∨ req.model = "" ∨
        truthy req.temperature = false)
    · exact ⟨fun _ => h1, fun _ => generate_response_missing models sessions principal req net h1⟩
    · refine ⟨fun h => ?_, fun h => absurd h h1⟩
      cases hpf : pyFloat req.temperature with
      | none =>
        rw [generate_response_invalidTemp models sessions principal req net h1 hpf] at h
        cases h
      | some temp =>
        exact absurd h (generate_response_valid_ne models sessions principal req net temp h1 hpf).1
  · by_cases h1 : (req.chat_id = "" ∨ req.message = "" ∨ req.model = "" ∨
        truthy req.temperature = false)
    · refine ⟨fun h => ?_, fun h => absurd h1 h.1⟩
      rw [generate_response_missing models sessions principal req net h1] at h
      cases h
    · cases hpf : pyFloat req.temperature with
      | none =>
        exact ⟨fun _ => ⟨h1, rfl⟩,
          fun _ => generate_response_invalidTemp models sessions principal req net h1 hpf⟩
      | some temp =>
        refine ⟨fun h => ?_, fun h => ?_⟩
        · exact absurd h
            (generate_response_valid_ne models sessions principal req net temp h1 hpf).2
        · have h2 := h.2
          simp [hpf] at h2

/-- Witness for C9 (amended): the missing-fields characterization applied
at the temperature-0 request. -/
theorem c9_validation_witness :
    (generate_response [⟨"m", "ep", true⟩] [⟨1, 7, "", []⟩] 7 ⟨"1", "hi", "m", .jnum 0⟩
        (.ok ⟨some [⟨some ⟨some "Hello!"⟩⟩]⟩)).1 = .missingFields :=
  (c9_validation [⟨"m", "ep", true⟩] [⟨1, 7, "", []⟩] 7 ⟨"1", "hi", "m", .jnum 0⟩
      (.ok ⟨some [⟨some ⟨some "Hello!"⟩⟩]⟩)).1.mpr (by decide)

/-! Helper lemmas about `markLastAi`. -/

lemma markLastAi_none : ∀ (l : List Msg), markLastAi l = none →
    ∀ m ∈ l, ¬(m.sender = "ai" ∧ m.regenerated = false) := by
  intro l
  induction l with
  | nil => intro _ m hm; cases hm
  | cons a rest ih =>
    intro h m hm
    cases hr : markLastAi rest with
    | some p => simp [markLastAi, hr] at h
    | none =>
      by_cases hcond : a.sender = "ai" ∧ a.regenerated = false
      · simp [markLastAi, hr, hcond] at h
      · cases hm with
        | head => exact hcond
        | tail _ hm2 => exact ih (hr) m hm2

lemma markLastAi_some : ∀ (l l1 : List Msg) (t : Msg), markLastAi l = some (l1, t) →
    t.sender = "ai" ∧ t.regenerated = false ∧
    ∃ pre post, l = pre ++ t :: post ∧ l1 = pre ++ setRegenerated t :: post ∧
      ∀ m ∈ post, ¬(m.sender = "ai" ∧ m.regenerated = false) := by
  intro l
  induction l with
  | nil => intro l1 t h; cases h
  | cons a rest ih =>
    intro l1 t h
    cases hr : markLastAi rest with
    | some p =>
      obtain ⟨l1', t'⟩ := p
      have he : markLastAi (a :: rest) = some (a :: l1', t') := by
        simp [markLastAi, hr]
      rw [he] at h
      rw [Option.some.injEq, Prod.mk.injEq] at h
      obtain ⟨hL, hT⟩ := h
      subst hL
      subst hT
      obtain ⟨hs, hn, pre, post, hl, hl1, hpost⟩ := ih l1' t' hr
      exact ⟨hs, hn, a :: pre, post, by rw [hl]; rfl, by rw [hl1]; rfl, hpost⟩
    | none =>
      by_cases hcond : a.sender = "ai" ∧ a.regenerated = false
      · have he : markLastAi (a :: rest) = some (setRegenerated a :: rest, a) := by
          simp [markLastAi, hr, hcond]
        rw [he] at h
        rw [Option.some.injEq, Prod.mk.injEq] at h
        obtain ⟨hL, hT⟩ := h
        subst hT
        refine ⟨hcond.1, hcond.2, [], rest, rfl, ?_, markLastAi_none rest hr⟩
        rw [← hL]
        rfl
      · have he : markLastAi (a :: rest) = none := by
          simp [markLastAi, hr, hcond]
        rw [he] at h
        cases h

/-- C3: `regenerate_message` with no non-regenerated ai message fails
with NoRegenerableMessage and leaves the store unchanged; otherwise the
located message really is the most recent non-regenerated ai message
(nothing after it qualifies), its `regenerated` flag is set and
persisted, and the marked log is a prefix of the final log for every
gateway outcome — including the no-prior-user-message failure and
upstream errors, so the mark is never rolled back. -/
theorem c3_regenerate_marking (models : List OpenAIModel) (msgs : List Msg)
    (net : Except Unit GwResp) :
    (markLastAi msgs = none →
      regenerate_message models msgs net = (.noAiMessage, msgs, none) ∧
      ∀ m ∈ msgs, ¬(m.sender = "ai" ∧ m.regenerated = false)) ∧
    (∀ msgs1 t, markLastAi msgs = some (msgs1, t) →
      (t.sender = "ai" ∧ t.regenerated = false ∧
        ∃ pre post, msgs = pre ++ t :: post ∧ msgs1 = pre ++ setRegenerated t :: post ∧
          ∀ m ∈ post, ¬(m.sender = "ai" ∧ m.regenerated = false)) ∧
      msgs1 <+: (regenerate_message models msgs net).2.1) := by
  constructor
  · intro h
    refine ⟨?_, markLastAi_none msgs h⟩
    unfold regenerate_message
    rw [h]
  · intro msgs1 t h
    refine ⟨markLastAi_some msgs msgs1 t h, ?_⟩
    unfold regenerate_message
    rw [h]
    cases hfu : (regenWindow msgs1).find? (fun m => m.sender == "user") with
    | none =>
      simp only [hfu]
      exact List.prefix_refl _
    | some u =>
      cases hg : get_openai_response models (some u.model_name) net with
      | error e =>
        simp only [hfu, hg]
        exact List.prefix_refl _
      | ok resp =>
        cases hx : extractContent resp with
        | none =>
          simp only [hfu, hg, hx]
          exact List.prefix_refl _
        | some content =>
          simp only [hfu, hg, hx]
          exact List.prefix_append _ _

/-- Witness for C3 at a concrete user/ai log: the marked log persists
into the result. -/
theorem c3_regenerate_marking_witness :
    ([⟨"user", "hi", "m", .finite 1, false⟩,
        setRegenerated ⟨"ai", "yo", "m", .finite 1, false⟩] : List Msg) <+:
      (regenerate_message [⟨"m", "ep", true⟩]
        [⟨"user", "hi", "m", .finite 1, false⟩, ⟨"ai", "yo", "m", .finite 1, false⟩]
        (.ok ⟨some [⟨some ⟨some "Hello!"⟩⟩]⟩)).2.1 :=
  ((c3_regenerate_marking [⟨"m", "ep", true⟩]
      [⟨"user", "hi", "m", .finite 1, false⟩, ⟨"ai", "yo", "m", .finite 1, false⟩]
      (.ok ⟨some [⟨some ⟨some "Hello!"⟩⟩]⟩)).2
    [⟨"user", "hi", "m", .finite 1, false⟩, setRegenerated ⟨"ai", "yo", "m", .finite 1, false⟩]
    ⟨"ai", "yo", "m", .finite 1, false⟩ (by decide)).2

/-- C8: the gateway call recorded by a regeneration carries the located
user message's stored temperature and model name (the request supplies
neither), and a successful regeneration appends exactly one new ai
message carrying that same model and temperature to the marked log. -/
theorem c8_regen_params (models : List OpenAIModel) (msgs : List Msg)
    (net : Except Unit GwResp) (msgs1 : List Msg) (t u : Msg)
    (h : markLastAi msgs = some (msgs1, t))
    (hu : (regenWindow msgs1).find? (fun m => m.sender == "user") = some u) :
    (∀ c, (regenerate_message models msgs net).2.2 = some c →
      c.temperature = u.temperature ∧ c.model_name = u.model_name) ∧
    (∀ content, (regenerate_message models msgs net).1 = .ok content →
      (regenerate_message models msgs net).2.1 =
        msgs1 ++ [⟨"ai", content, u.model_name, u.temperature, false⟩]) := by
  unfold regenerate_message
  rw [h]
  cases hg : get_openai_response models (some u.model_name) net with
  | error e =>
    refine ⟨fun c hc => ?_, fun content hcont => ?_⟩
    · simp [hu, hg] at hc
      exact ⟨by rw [← hc], by rw [← hc]⟩
    · simp [hu, hg] at hcont
  | ok resp =>
    cases hx : extractContent resp with
    | none =>
      refine ⟨fun c hc => ?_, fun content hcont => ?_⟩
      · simp [hu, hg, hx] at hc
        exact ⟨by rw [← hc], by rw [← hc]⟩
      · simp [hu, hg, hx] at hcont
    | some content0 =>
      refine ⟨fun c hc => ?_, fun content hcont => ?_⟩
      · simp [hu, hg, hx] at hc
        exact ⟨by rw [← hc], by rw [← hc]⟩
      · simp [hu, hg, hx] at hcont
        subst hcont
        simp [hu, hg, hx]

/-- Witness for C8 at a concrete regeneration: the new ai message reuses
the original model and temperature. -/
theorem c8_regen_params_witness :
    (regenerate_message [⟨"m", "ep", true⟩]
        [⟨"user", "hi", "m", .finite 1, false⟩, ⟨"ai", "yo", "m", .finite 1, false⟩]
        (.ok ⟨some [⟨some ⟨some "Hello!"⟩⟩]⟩)).2.1 =
      [⟨"user", "hi", "m", .finite 1, false⟩,
        setRegenerated ⟨"ai", "yo", "m", .finite 1, false⟩] ++
        [⟨"ai", "Hello!", "m", .finite 1, false⟩] :=
  ((c8_regen_params [⟨"m", "ep", true⟩]
      [⟨"user", "hi", "m", .finite 1, false⟩, ⟨"ai", "yo", "m", .finite 1, false⟩]
      (.ok ⟨some [⟨some ⟨some "Hello!"⟩⟩]⟩)
      [⟨"user", "hi", "m", .finite 1, false⟩, setRegenerated ⟨"ai", "yo", "m", .finite 1, false⟩]
      ⟨"ai", "yo", "m", .finite 1, false⟩ ⟨"user", "hi", "m", .finite 1, false⟩
      (by decide) (by decide)).2 "Hello!" (by decide))

/-! Helper lemmas about the title trace invariant. -/

lemma pyTake30_ne_empty (s : String) (h : s ≠ "") : pyTake 30 s ≠ "" := by
  intro hcontra
  apply h
  have hdata : s.data.take 30 = [] := by
    have h2 := congrArg String.data hcontra
    simpa [pyTake] using h2
  rcases List.take_eq_nil_iff.mp hdata with h30 | hnil
  · exact absurd h30 (by decide)
  · cases s with
    | mk data =>
      simp only at hnil
      rw [hnil]

lemma sendCore_state (models : List OpenAIModel) (s : Sess) (message model : String)
    (temp : PyFloat) (net : Except Unit GwResp) :
    ((sendCore models s message model temp net).2.1 = s ∧
      ∀ t, (sendCore models s message model temp net).1 ≠ .ok t) ∨
    (∃ ai_reply, (sendCore models s message model temp net).1 = .ok ai_reply ∧
      (sendCore models s message model temp net).2.1 =
        ⟨if s.title = "" then pyTake 30 message else s.title,
          s.msgs ++ [⟨"user", message, model, temp, false⟩,
            ⟨"ai", ai_reply, model, temp, false⟩]⟩) := by
  unfold sendCore
  cases get_openai_response models (some model) net with
  | error e => left; exact ⟨rfl, fun t => by simp⟩
  | ok resp =>
    cases h : extractContent resp with
    | none => left; exact ⟨by simp [h], fun t => by simp [h]⟩
    | some ai_reply => right; exact ⟨ai_reply, by simp [h], by simp [h]⟩

lemma sendSession_state (models : List OpenAIModel) (s : Sess) (message model : String)
    (temperature : JVal) (net : Except Unit GwResp) :
    ((sendSession models s message model temperature net).2.1 = s ∧
      ∀ t, (sendSession models s message model temperature net).1 ≠ .ok t) ∨
    ((∃ r, (sendSession models s message model temperature net).1 = .ok r) ∧ message ≠ "" ∧
      (sendSession models s message model temperature net).2.1.title =
        (if s.title = "" then pyTake 30 message else s.title)) := by
  unfold sendSession
  by_cases hval : (message = "" ∨ model = "" ∨ truthy temperature = false)
  · rw [if_pos hval]
    exact Or.inl ⟨rfl, fun t => by simp⟩
  · rw [if_neg hval]
    cases pyFloat temperature with
    | none => exact Or.inl ⟨rfl, fun t => by simp⟩
    | some temp =>
      rcases sendCore_state models s message model temp net with ⟨h1, h2⟩ | ⟨r, h1, h2⟩
      · exact Or.inl ⟨h1, h2⟩
      · exact Or.inr ⟨⟨r, h1⟩, fun hm => hval (Or.inl hm), by rw [h2]⟩

lemma stepOp_title (models : List OpenAIModel) (s : Sess) (op : Op) :
    ((stepOp models s op).2 = none ∧ (stepOp models s op).1.title = s.title) ∨
    (∃ message, (stepOp models s op).2 = some message ∧ message ≠ "" ∧
      (stepOp models s op).1.title = (if s.title = "" then pyTake 30 message else s.title)) := by
  cases op with
  | regen net => exact Or.inl ⟨rfl, rfl⟩
  | send message model temperature net =>
    simp only [stepOp]
    rcases sendSession_state models s message model temperature net with
      ⟨h1, h2⟩ | ⟨⟨r, hok⟩, hne, ht⟩
    · left
      cases hc : (sendSession models s message model temperature net).1 with
      | ok t => exact absurd hc (h2 t)
      | missingFields => exact ⟨rfl, congrArg Sess.title h1⟩
      | invalidTemperature => exact ⟨rfl, congrArg Sess.title h1⟩
      | invalidChatId => exact ⟨rfl, congrArg Sess.title h1⟩
      | internalError => exact ⟨rfl, congrArg Sess.title h1⟩
      | alreadyProcessing => exact ⟨rfl, congrArg Sess.title h1⟩
    · right
      cases hc : (sendSession models s message model temperature net).1 with
      | ok t => exact ⟨message, rfl, hne, ht⟩
      | missingFields => exact absurd (hc.symm.trans hok) (by simp)
      | invalidTemperature => exact absurd (hc.symm.trans hok) (by simp)
      | invalidChatId => exact absurd (hc.symm.trans hok) (by simp)
      | internalError => exact absurd (hc.symm.trans hok) (by simp)
      | alreadyProcessing => exact absurd (hc.symm.trans hok) (by simp)

lemma runAcc_spec (models : List OpenAIModel) : ∀ (ops : List Op) (s : Sess),
    ((runAcc models s ops).1.title =
      if s.title = "" then pyTake 30 ((runAcc models s ops).2.head?.getD "") else s.title) ∧
    (∀ m ∈ (runAcc models s ops).2, m ≠ "") := by
  intro ops
  induction ops with
  | nil =>
    intro s
    constructor
    · by_cases h : s.title = "" <;> simp [runAcc, h, pyTake]
    · intro m hm
      simp [runAcc] at hm
  | cons op ops ih =>
    intro s
    obtain ⟨iht, ihm⟩ := ih (stepOp models s op).1
    rcases stepOp_title models s op with ⟨h2, ht⟩ | ⟨message, h2, hne, ht⟩
    · have e1 : (runAcc models s (op :: ops)).1 = (runAcc models (stepOp models s op).1 ops).1 := by
        simp [runAcc]
      have e2 : (runAcc models s (op :: ops)).2 = (runAcc models (stepOp models s op).1 ops).2 := by
        simp [runAcc, h2]
      constructor
      · rw [e1, e2, iht, ht]
      · intro m hm
        rw [e2] at hm
        exact ihm m hm
    · have e1 : (runAcc models s (op :: ops)).1 = (runAcc models (stepOp models s op).1 ops).1 := by
        simp [runAcc]
      have e2 : (runAcc models s (op :: ops)).2 =
          message :: (runAcc models (stepOp models s op).1 ops).2 := by
        simp [runAcc, h2]
      constructor
      · rw [e1, e2, iht, ht]
        by_cases hst : s.title = ""
        · rw [if_pos hst, if_pos hst]
          rw [if_neg (pyTake30_ne_empty message hne)]
          simp
        · rw [if_neg hst, if_neg hst, if_neg hst]
      · intro m hm
        rw [e2] at hm
        cases hm with
        | head => exact hne
        | tail _ hm2 => exact ihm m hm2

/-- C5: starting from a fresh session (blank title, no messages), after
any trace of send and regenerate requests the title equals the first 30
characters of the first successfully sent user text, and the title is
non-blank exactly when at least one send succeeded.  In particular the
title is set by the first successful exchange and never overwritten by
later ones. -/
theorem c5_title_invariant (models : List OpenAIModel) (ops : List Op) :
    ((runAcc models ⟨"", []⟩ ops).1.title =
      pyTake 30 ((runAcc models ⟨"", []⟩ ops).2.head?.getD "")) ∧
    ((runAcc models ⟨"", []⟩ ops).1.title ≠ "" ↔ (runAcc models ⟨"", []⟩ ops).2 ≠ []) := by
  obtain ⟨ht, hm⟩ := runAcc_spec models ops ⟨"", []⟩
  have ht' : (runAcc models ⟨"", []⟩ ops).1.title =
      pyTake 30 ((runAcc models ⟨"", []⟩ ops).2.head?.getD "") := by
    simpa using ht
  refine ⟨ht', ?_, ?_⟩
  · intro hne hnil
    rw [hnil] at ht'
    exact hne (ht'.trans rfl)
  · intro hnenil
    cases hsucc : (runAcc models ⟨"", []⟩ ops).2 with
    | nil => exact absurd hsucc hnenil
    | cons m rest =>
      rw [hsucc] at ht'
      simp only [List.head?_cons, Option.getD_some] at ht'
      rw [ht']
      exact pyTake30_ne_empty m (hm m (by rw [hsucc]; exact List.mem_cons_self m rest))

/-- Witness for C5 at a concrete one-send trace. -/
theorem c5_title_invariant_witness :
    (runAcc [⟨"m", "ep", true⟩] ⟨"", []⟩
        [.send "hello" "m" (.jnum 1) (.ok ⟨some [⟨some ⟨some "Hello!"⟩⟩]⟩)]).1.title =
      pyTake 30 ((runAcc [⟨"m", "ep", true⟩] ⟨"", []⟩
        [.send "hello" "m" (.jnum 1) (.ok ⟨some [⟨some ⟨some "Hello!"⟩⟩]⟩)]).2.head?.getD "") :=
  (c5_title_invariant [⟨"m", "ep", true⟩]
    [.send "hello" "m" (.jnum 1) (.ok ⟨some [⟨some ⟨some "Hello!"⟩⟩]⟩)]).1

/-- C6: a truthy model name that names no active configuration makes the
gateway fail with UnknownModel (`ValueError` in `get_openai_response`),
and since `generate_response` calls the gateway before creating any
`ChatMessage`, no message is appended; with no model name given, the
first active configuration is selected as default, and if no
configuration is active the gateway fails with NoModelAvailable. -/
theorem c6_model_resolution (models : List OpenAIModel) (net : Except Unit GwResp) :
    (∀ name, name ≠ "" → (∀ m ∈ models, ¬(m.name = name ∧ m.active = true)) →
      get_openai_response models (some name) net = .error .unknownModel) ∧
    ((∀ m ∈ models, m.active = false) →
      get_openai_response models none net = .error .noModelAvailable) ∧
    (∀ m0, models.find? (fun m => m.active) = some m0 →
      resolveModel models none = .ok m0 ∧ m0.active = true ∧ m0 ∈ models) ∧
    (∀ (s : Sess) (message model : String) (temp : PyFloat), model ≠ "" →
      (∀ m ∈ models, ¬(m.name = model ∧ m.active = true)) →
      (sendCore models s message model temp net).1 = .internalError ∧
      (sendCore models s message model temp net).2.1 = s) := by
  have hUnknown : ∀ name, name ≠ "" → (∀ m ∈ models, ¬(m.name = name ∧ m.active = true)) →
      get_openai_response models (some name) net = .error .unknownModel := by
    intro name hname hmods
    have hf : models.find? (fun m => m.name == name && m.active) = none := by
      rw [List.find?_eq_none]
      intro x hx
      simp only [Bool.and_eq_true, beq_iff_eq]
      exact fun hc => hmods x hx ⟨hc.1, hc.2⟩
    unfold get_openai_response resolveModel
    simp only [Option.getD_some]
    rw [if_neg hname, hf]
  refine ⟨hUnknown, ?_, ?_, ?_⟩
  · intro hall
    have hf : models.find? (fun m => m.active) = none := by
      rw [List.find?_eq_none]
      intro x hx
      simp [hall x hx]
    unfold get_openai_response resolveModel
    simp only [Option.getD_none, if_true]
    rw [hf]
  · intro m0 hm0
    refine ⟨?_, by simpa using List.find?_some hm0, List.mem_of_find?_eq_some hm0⟩
    unfold resolveModel
    simp only [Option.getD_none, if_true]
    rw [hm0]
  · intro s message model temp hmodel hmods
    have hg := hUnknown model hmodel hmods
    unfold sendCore
    rw [hg]
    exact ⟨rfl, rfl⟩

/-- Witness for C6: an unknown model name fails with UnknownModel, and a
store with only inactive configurations fails with NoModelAvailable. -/
theorem c6_model_resolution_witness :
    get_openai_response [⟨"m", "ep", true⟩] (some "ghost") (.ok ⟨none⟩) =
      .error .unknownModel ∧
    get_openai_response [⟨"m", "ep", false⟩] none (.ok ⟨none⟩) =
      .error .noModelAvailable :=
  ⟨(c6_model_resolution [⟨"m", "ep", true⟩] (.ok ⟨none⟩)).1 "ghost" (by decide) (by decide),
    (c6_model_resolution [⟨"m", "ep", false⟩] (.ok ⟨none⟩)).2.1 (by decide)⟩

/-- C10: deleting a session the caller owns removes it and (cascade) all
its messages; afterwards, exactly when the caller has no session left, a
fresh empty session is created for them and its identifier is returned as
`new_chat_id`, otherwise `new_chat_id` is null. -/
theorem c10_delete_chat (db : Db) (p cid : Nat)
    (hmem : (⟨cid, p⟩ : SessionRec) ∈ db.sessions)
    (hfreshS : ∀ s ∈ db.sessions, s.sid ≠ db.nextId)
    (hfreshM : ∀ m ∈ db.messages, m.chatId ≠ db.nextId) :
    (∀ s ∈ (delete_chat db p cid).2.sessions, s.sid ≠ cid) ∧
    (∀ m ∈ (delete_chat db p cid).2.messages, m.chatId ≠ cid) ∧
    ((delete_chat db p cid).1 = .ok none ↔
      ∃ s ∈ db.sessions, s.sid ≠ cid ∧ s.owner = p) ∧
    ((delete_chat db p cid).1 = .ok (some db.nextId) ↔
      ¬∃ s ∈ db.sessions, s.sid ≠ cid ∧ s.owner = p) ∧
    ((¬∃ s ∈ db.sessions, s.sid ≠ cid ∧ s.owner = p) →
      ((⟨db.nextId, p⟩ : SessionRec) ∈ (delete_chat db p cid).2.sessions ∧
        ∀ m ∈ (delete_chat db p cid).2.messages, m.chatId ≠ db.nextId)) := by
  have hcidne : cid ≠ db.nextId := hfreshS ⟨cid, p⟩ hmem
  obtain ⟨s0, hs0⟩ : ∃ s0, db.sessions.find? (fun s => s.sid == cid && s.owner == p) = some s0 :=
    Option.isSome_iff_exists.mp (List.find?_isSome.mpr ⟨⟨cid, p⟩, hmem, by simp⟩)
  have hexistsIff :
      (db.sessions.filter (fun s => s.sid ≠ cid)).any (fun s => s.owner == p) = true ↔
        ∃ s ∈ db.sessions, s.sid ≠ cid ∧ s.owner = p := by
    rw [List.any_eq_true]
    constructor
    · rintro ⟨x, hx, hxp⟩
      obtain ⟨hxmem, hxne⟩ := List.mem_filter.mp hx
      exact ⟨x, hxmem, by simpa using hxne, by simpa using hxp⟩
    · rintro ⟨x, hxmem, hxne, hxp⟩
      exact ⟨x, List.mem_filter.mpr ⟨hxmem, by simpa using hxne⟩, by simpa using hxp⟩
  unfold delete_chat
  rw [hs0]
  by_cases hany :
      (db.sessions.filter (fun s => s.sid ≠ cid)).any (fun s => s.owner == p) = true
  · rw [if_pos hany]
    refine ⟨?_, ?_, ?_, ?_, ?_⟩
    · intro s hs
      have := (List.mem_filter.mp hs).2
      simpa using this
    · intro m hm
      have := (List.mem_filter.mp hm).2
      simpa using this
    · simpa using hexistsIff.mp hany
    · constructor
      · intro h
        simp at h
      · intro h
        exact absurd (hexistsIff.mp hany) h
    · intro h
      exact absurd (hexistsIff.mp hany) h
  · rw [if_neg hany]
    refine ⟨?_, ?_, ?_, ?_, ?_⟩
    · intro s hs
      rcases List.mem_append.mp hs with hs1 | hs2
      · have := (List.mem_filter.mp hs1).2
        simpa using this
      · have : s = (⟨db.nextId, p⟩ : SessionRec) := by simpa using hs2
        rw [this]
        exact fun hcontra => hcidne hcontra.symm
    · intro m hm
      have := (List.mem_filter.mp hm).2
      simpa using this
    · constructor
      · intro h
        simp at h
      · intro h
        exact absurd ((hexistsIff.mpr h)) hany
    · constructor
      · intro _
        intro h
        exact hany (hexistsIff.mpr h)
      · intro _
        rfl
    · intro _
      constructor
      · exact List.mem_append.mpr (Or.inr (by simp))
      · intro m hm
        exact hfreshM m (List.mem_of_mem_filter hm)

/-- Witness for C10 at a concrete one-session database: the deletion
returns a fresh session identifier. -/
theorem c10_delete_chat_witness :
    (delete_chat ⟨[⟨1, 7⟩], [⟨0, 1⟩], 10⟩ 7 1).1 = .ok (some 10) :=
  ((c10_delete_chat ⟨[⟨1, 7⟩], [⟨0, 1⟩], 10⟩ 7 1 (by decide) (by decide)
    (by decide)).2.2.2.1).mpr (by decide)

end Backend
